import Mathlib

/-
Verification development for the mercure-hub repository.

The TypeScript source is embedded shallowly: pure functions become Lean
functions, stateful methods become explicit state passing, and platform
facilities that the claims do not depend on (the URLPattern matching engine,
JWT signature verification, URL parsing) are taken as function parameters.
JavaScript string truthiness (undefined/null/empty string are falsy) is made
explicit through the `truthy` predicate on `Option String`.
-/

/-- The Update record from src/updates.ts. The source field named `private`
is embedded as `confidential`, the local alias the source itself uses when
destructuring it in Subscriber.canAccess, because `private` is a Lean
keyword. JavaScript truthiness of the optional flag collapses undefined and
false, so the field is a plain Bool defaulting to false. -/
structure Update where
  id : String
  canonicalTopic : String
  alternateTopics : List String
  data : Option String := none
  type : Option String := none
  retry : Option Nat := none
  confidential : Bool := false
  deriving DecidableEq, Repr

/-- The three selector variants produced by createTopicSelector in
src/topic.ts: the Wildcard symbol, a literal string, or a compiled
URL pattern. The template variant carries the URI-template string that the
source hands to convertToUrlPattern; the platform pattern-matching engine
itself is abstracted as the PatTest parameter below. -/
inductive Selector where
  | wildcard
  | literal (iri : String)
  | template (tpl : String)
  deriving DecidableEq, Repr

/-- Abstraction of the platform URLPattern test: given the URI template the
pattern was compiled from, the optional base URL, and a candidate topic,
decide whether the pattern matches. The claims settled here do not depend on
its behaviour, so every theorem quantifies over it. -/
def PatTest : Type := String → Option String → String → Bool

/-- A pattern test that rejects everything; used to instantiate PatTest in
concrete witnesses and counterexamples where templates never occur. -/
def ptFalse : PatTest := fun _ _ _ => false

/-- The TopicSelector class from src/topic.ts: a pre-compiled selector plus
the optional base URL. -/
structure TopicSelector where
  selector : Selector
  baseURL : Option String
  deriving DecidableEq, Repr

/-- Embedding of the JavaScript substring check `topic.includes("\x7b")` for
the one-character needle used by createTopicSelector. -/
def includesBrace (s : String) : Bool :=
  s.toList.any fun c => c = '\x7b'

/-- createTopicSelector from src/topic.ts: the exact string "*" compiles to
the Wildcard variant, a string containing a left brace compiles to the
template variant (the source calls convertToUrlPattern on it), and every
other string compiles to a literal. -/
def createTopicSelector (topic : String) (baseURL : Option String := none) : TopicSelector :=
  if topic = "*" then
    { selector := Selector.wildcard, baseURL := baseURL }
  else if includesBrace topic then
    { selector := Selector.template topic, baseURL := baseURL }
  else
    { selector := Selector.literal topic, baseURL := baseURL }

/-- TopicSelector.test from src/topic.ts: true when at least one of the given
topics matches; the wildcard matches everything, a literal matches by string
equality, and a template defers to the platform pattern test. -/
def TopicSelector.test (pt : PatTest) (s : TopicSelector) (topics : List String) : Bool :=
  topics.any fun topic =>
    match s.selector with
    | Selector.wildcard => true
    | Selector.literal l => l == topic
    | Selector.template tpl => pt tpl s.baseURL topic

/-- The Subscription class from src/subscriptions.ts, restricted to the data
its match method reads: the compiled selector. (The source name `match` is a
Lean keyword, hence `matches`.) -/
structure Subscription where
  selector : TopicSelector
  deriving DecidableEq, Repr

/-- Subscription.match: delegates to the selector over the topic list. -/
def Subscription.matches (pt : PatTest) (s : Subscription) (topics : List String) : Bool :=
  s.selector.test pt topics

/-- The Subscriber fields read by canAccess in src/subscribers.ts: the
authorized-topic selectors from the JWT and the set of subscriptions. -/
structure Subscriber where
  authorizedTopics : List TopicSelector
  subscriptions : List Subscription
  deriving DecidableEq, Repr

/-- Subscriber.canAccess from src/subscribers.ts lines 137-162: deny
everything when anonymous access is disabled and the subscriber has no
authorized topics; otherwise scan the subscriptions for one whose selector
matches the canonical or an alternate topic, and for private updates
additionally require some authorized selector to match the same topic set. -/
def Subscriber.canAccess (pt : PatTest) (s : Subscriber) (u : Update)
    (anonymousAccessEnabled : Bool) : Bool :=
  if !anonymousAccessEnabled && s.authorizedTopics.isEmpty then
    false
  else
    s.subscriptions.any fun subscription =>
      subscription.matches pt (u.canonicalTopic :: u.alternateTopics) &&
        (!u.confidential ||
          s.authorizedTopics.any fun selector =>
            selector.test pt (u.canonicalTopic :: u.alternateTopics))

theorem any_and_const {α : Type} (l : List α) (p : α → Bool) (b : Bool) :
    (l.any fun x => p x && b) = (l.any p && b) := by
  cases b <;> simp

/-- Concrete instances for the C1 counterexample: a subscriber holding one
wildcard subscription and no authorized topics, and a public update. -/
def subC1 : Subscriber :=
  { authorizedTopics := []
    subscriptions := [{ selector := { selector := Selector.wildcard, baseURL := none } }] }

def updC1 : Update :=
  { id := "urn:uuid:c1", canonicalTopic := "https://example.com/a", alternateTopics := [] }

/-- C1, counterexample: with anonymous access disabled, a subscriber with an
empty authorizedTopics list and a matching wildcard subscription, and a
public update, the two conditions of the claimed equivalence hold and yet
canAccess returns false, refuting the claimed iff as stated. -/
theorem c1_counterexample :
    ¬ (subC1.canAccess ptFalse updC1 false = true ↔
        (subC1.subscriptions.any (fun sub =>
            sub.matches ptFalse (updC1.canonicalTopic :: updC1.alternateTopics)) = true ∧
          (updC1.confidential = false ∨
            subC1.authorizedTopics.any (fun sel =>
              sel.test ptFalse (updC1.canonicalTopic :: updC1.alternateTopics)) = true))) := by
  decide

/-- C1, amended: canAccess returns true iff anonymous access is enabled or
the subscriber has at least one authorized topic, and some subscription
selector matches the topic set of the update, and the update is public or
some authorized selector matches the same topic set. In particular a
subscriber with no authorized topics receives nothing while anonymous access
is disabled. -/
theorem c1_canAccess_characterization (pt : PatTest) (s : Subscriber) (u : Update)
    (anon : Bool) :
    s.canAccess pt u anon =
      ((anon || !s.authorizedTopics.isEmpty) &&
        s.subscriptions.any (fun sub =>
          sub.matches pt (u.canonicalTopic :: u.alternateTopics)) &&
        (!u.confidential ||
          s.authorizedTopics.any fun sel =>
            sel.test pt (u.canonicalTopic :: u.alternateTopics))) := by
  cases hA : anon <;> cases hE : s.authorizedTopics.isEmpty <;>
    simp [Subscriber.canAccess, hA, hE, any_and_const, Bool.and_assoc]

/-- C7: createTopicSelector yields exactly one of the three variants, chosen
by the documented rule: the exact string "*" gives the wildcard, any other
string containing a left brace gives the template variant built from the
topic itself, and every remaining string gives the literal variant; the base
URL is carried through unchanged. -/
theorem c7_compile_three_variants (t : String) (b : Option String) :
    createTopicSelector t b =
      { selector :=
          if t = "*" then Selector.wildcard
          else if includesBrace t then Selector.template t
          else Selector.literal t
        baseURL := b } := by
  unfold createTopicSelector
  split
  · rfl
  · split <;> rfl

/-- C8: a selector compiled from a literal IRI (no brace, not "*") matches
that same IRI, and the selector compiled from "*" matches every topic,
whatever the platform pattern test does. -/
theorem c8_literal_and_wildcard_match (pt : PatTest) (t : String) (b b2 : Option String)
    (x : String) (h1 : t ≠ "*") (h2 : includesBrace t = false) :
    (createTopicSelector t b).test pt [t] = true ∧
    (createTopicSelector "*" b2).test pt [x] = true := by
  constructor
  · simp [createTopicSelector, h1, h2, TopicSelector.test]
  · simp [createTopicSelector, TopicSelector.test]

/-- C8 witness at a concrete literal IRI and a concrete topic. -/
theorem c8_witness :
    ("https://example.com/foo" ≠ "*") ∧
    includesBrace "https://example.com/foo" = false ∧
    ((createTopicSelector "https://example.com/foo" none).test ptFalse
        ["https://example.com/foo"] = true ∧
      (createTopicSelector "*" none).test ptFalse ["any-topic"] = true) :=
  ⟨by decide, by decide,
    c8_literal_and_wildcard_match ptFalse "https://example.com/foo" none none
      "any-topic" (by decide) (by decide)⟩

/-
Authorization (src/server/authorization.ts). The JWT verifier and the URL
origin extractor are platform/third-party facilities and are taken as
parameters: `verify` stands for verifyJwt against the configured key (some
payload on success, none when verification fails) and `urlOrigin` stands for
reading the origin of a parsed URL, as the source does on the Referer value.
-/

deriving instance DecidableEq for Except

/-- JavaScript truthiness of an optional string value: undefined, null and
the empty string are falsy. -/
def truthy : Option String → Bool
  | none => false
  | some s => !s.toList.isEmpty

/-- An HttpError (src/server/_errors.ts): status, message and extra headers. -/
structure HttpErr where
  status : Nat
  message : String
  headers : List (String × String)
  deriving DecidableEq, Repr

/-- The configuration fields that authorize reads. -/
structure Config where
  queryParamAuthorization : Bool
  anonymousAccess : Bool
  allowedOrigins : List String
  deriving DecidableEq, Repr

/-- The parts of the incoming request that authorize reads. cookieToken is
the value of the cookie named by config.cookieName, when present. -/
structure AuthRequest where
  authorizationHeader : Option String := none
  queryAuthorization : Option String := none
  cookieToken : Option String := none
  originHeader : Option String := none
  refererHeader : Option String := none
  referrerHeader : Option String := none
  deriving DecidableEq, Repr

/-- Embedding of the JavaScript one-character split used on the
Authorization header; the source only reads indices 0 and 1, so the limit-2
truncation of split(" ", 2) is immaterial. -/
def splitOnChar (s : String) (c : Char) : List String :=
  (s.toList.splitOn c).map String.mk

/-- parseToken from src/server/authorization.ts: return the verified payload
or fail with 403 Forbidden. -/
def parseToken {α : Type} (verify : String → Option α) (token : String) :
    Except HttpErr α :=
  match verify token with
  | some payload => Except.ok payload
  | none => Except.error { status := 403, message := "Forbidden", headers := [] }

/-- The origin resolution inside authorize: the Origin header when truthy,
otherwise the origin of the Referer (or Referrer) header value when that is
truthy, otherwise nothing. -/
def resolvedOrigin (urlOrigin : String → String) (request : AuthRequest) :
    Option String :=
  if truthy request.originHeader then
    request.originHeader
  else
    let originHeader := request.refererHeader <|> request.referrerHeader
    if truthy originHeader then some (urlOrigin (originHeader.getD "")) else none

/-- The origin rejection condition of authorize: a truthy resolved origin
that is absent from the allowed-origins list while "*" is also absent. -/
def originDisallowed (urlOrigin : String → String) (config : Config)
    (request : AuthRequest) : Bool :=
  let origin := resolvedOrigin urlOrigin request
  truthy origin &&
    !(config.allowedOrigins.contains (origin.getD "")) &&
    !(config.allowedOrigins.contains "*")

/-- authorize from src/server/authorization.ts: a truthy Authorization
header short-circuits everything (401 invalid_token unless it is
`Bearer <token>`, else the token is verified); otherwise an enabled and
truthy authorization query parameter is verified; otherwise the cookie path
runs: 401 when no cookie token and anonymous access is off, then the origin
check (403 on a disallowed origin), then the cookie token is verified, or an
anonymous success is returned. -/
def authorize {α : Type} (verify : String → Option α) (urlOrigin : String → String)
    (config : Config) (request : AuthRequest) : Except HttpErr (Option α) :=
  if truthy request.authorizationHeader then
    let authorization := request.authorizationHeader.getD ""
    let parts := splitOnChar authorization ' '
    let btype := parts.headD ""
    let token := (parts[1]?).getD ""
    if btype != "Bearer" || token.toList.isEmpty then
      Except.error
        { status := 401, message := "Unauthorized"
          headers := [("WWW-Authenticate", "Bearer realm=\"mercure\", error=\"invalid_token\"")] }
    else
      (parseToken verify token).map some
  else if config.queryParamAuthorization && truthy request.queryAuthorization then
    (parseToken verify (request.queryAuthorization.getD "")).map some
  else
    let token := request.cookieToken
    if !(truthy token) && !config.anonymousAccess then
      Except.error
        { status := 401, message := "Unauthorized"
          headers := [("WWW-Authenticate", "Bearer realm=\"mercure\"")] }
    else if originDisallowed urlOrigin config request then
      Except.error { status := 403, message := "Forbidden", headers := [] }
    else if truthy token then
      (parseToken verify (token.getD "")).map some
    else
      Except.ok none

/-- A verifier that accepts every token, for concrete instantiations. -/
def verifyAlways : String → Option String := fun _ => some "claims"

/-- A verifier that rejects every token, for concrete instantiations. -/
def verifyNever : String → Option String := fun _ => none

/-- The identity origin extractor, for concrete instantiations where the
Referer header is never consulted. -/
def urlOriginId : String → String := fun s => s

def cfgC5 : Config :=
  { queryParamAuthorization := false, anonymousAccess := false, allowedOrigins := [] }

def reqC5 : AuthRequest :=
  { authorizationHeader := some "Bearer token123"
    originHeader := some "https://evil.example" }

/-- C5, counterexample: a request carrying a valid Bearer token in the
Authorization header together with a non-empty origin that is not in the
(empty) allowed-origins list succeeds instead of failing with 403: the
origin check is skipped on the header path. -/
theorem c5_counterexample :
    truthy reqC5.originHeader = true ∧
    cfgC5.allowedOrigins.contains ((resolvedOrigin urlOriginId reqC5).getD "") = false ∧
    cfgC5.allowedOrigins.contains "*" = false ∧
    authorize verifyAlways urlOriginId cfgC5 reqC5 = Except.ok (some "claims") := by
  decide

/-- C5, amended: the disallowed-origin 403 applies only on the cookie or
anonymous path. When the Authorization header is not presented, no enabled
query-parameter token is presented, the 401 guard does not fire, and the
resolved origin is non-empty, outside the allowed-origins list and "*" is
not in the list, authorize fails with 403 Forbidden. -/
theorem c5_origin_rejected_on_cookie_path {α : Type} (verify : String → Option α)
    (urlOrigin : String → String) (config : Config) (request : AuthRequest)
    (h1 : truthy request.authorizationHeader = false)
    (h2 : (config.queryParamAuthorization && truthy request.queryAuthorization) = false)
    (h3 : (!(truthy request.cookieToken) && !config.anonymousAccess) = false)
    (h4 : originDisallowed urlOrigin config request = true) :
    authorize verify urlOrigin config request =
      Except.error { status := 403, message := "Forbidden", headers := [] } := by
  simp [authorize, h1, h2, h3, h4]

def cfgC5w : Config :=
  { queryParamAuthorization := false, anonymousAccess := false
    allowedOrigins := ["https://good.example"] }

def reqC5w : AuthRequest :=
  { cookieToken := some "cookie-token"
    originHeader := some "https://evil.example" }

/-- C5 witness: a cookie-authenticated request from a disallowed origin is
rejected with 403. -/
theorem c5_witness :
    truthy reqC5w.authorizationHeader = false ∧
    (cfgC5w.queryParamAuthorization && truthy reqC5w.queryAuthorization) = false ∧
    (!(truthy reqC5w.cookieToken) && !cfgC5w.anonymousAccess) = false ∧
    originDisallowed urlOriginId cfgC5w reqC5w = true ∧
    authorize verifyAlways urlOriginId cfgC5w reqC5w =
      Except.error { status := 403, message := "Forbidden", headers := [] } :=
  ⟨by decide, by decide, by decide, by decide,
    c5_origin_rejected_on_cookie_path verifyAlways urlOriginId cfgC5w reqC5w
      (by decide) (by decide) (by decide) (by decide)⟩

def cfgC6 : Config :=
  { queryParamAuthorization := false, anonymousAccess := true, allowedOrigins := [] }

def reqC6 : AuthRequest := { originHeader := some "https://evil.example" }

/-- C6, counterexample: a tokenless request under anonymousAccess=true does
not always succeed anonymously: with a non-empty disallowed origin it fails
with 403 Forbidden. -/
theorem c6_counterexample :
    truthy reqC6.authorizationHeader = false ∧
    truthy reqC6.queryAuthorization = false ∧
    truthy reqC6.cookieToken = false ∧
    cfgC6.anonymousAccess = true ∧
    authorize verifyNever urlOriginId cfgC6 reqC6 =
      Except.error { status := 403, message := "Forbidden", headers := [] } := by
  decide

/-- C6, amended: when no token is found in the Authorization header, the
(enabled) authorization query parameter, or the cookie, authorize fails with
401 and the header WWW-Authenticate Bearer realm mercure whenever anonymous
access is disabled; when anonymous access is enabled it succeeds with an
anonymous (none) result unless the origin check rejects the request with
403. -/
theorem c6_no_token {α : Type} (verify : String → Option α)
    (urlOrigin : String → String) (config : Config) (request : AuthRequest)
    (h1 : truthy request.authorizationHeader = false)
    (h2 : (config.queryParamAuthorization && truthy request.queryAuthorization) = false)
    (h3 : truthy request.cookieToken = false) :
    authorize verify urlOrigin config request =
      if config.anonymousAccess then
        (if originDisallowed urlOrigin config request then
          Except.error { status := 403, message := "Forbidden", headers := [] }
        else Except.ok none)
      else
        Except.error
          { status := 401, message := "Unauthorized"
            headers := [("WWW-Authenticate", "Bearer realm=\"mercure\"")] } := by
  cases hAnon : config.anonymousAccess <;>
    simp [authorize, h1, h2, h3, hAnon]

def cfgC6w : Config :=
  { queryParamAuthorization := false, anonymousAccess := false, allowedOrigins := [] }

def reqC6w : AuthRequest := {}

/-- C6 witness: a tokenless request with anonymous access disabled yields
the 401 with the WWW-Authenticate header. -/
theorem c6_witness :
    truthy reqC6w.authorizationHeader = false ∧
    (cfgC6w.queryParamAuthorization && truthy reqC6w.queryAuthorization) = false ∧
    truthy reqC6w.cookieToken = false ∧
    authorize verifyNever urlOriginId cfgC6w reqC6w =
      (if cfgC6w.anonymousAccess then
        (if originDisallowed urlOriginId cfgC6w reqC6w then
          Except.error { status := 403, message := "Forbidden", headers := [] }
        else Except.ok none)
      else
        Except.error
          { status := 401, message := "Unauthorized"
            headers := [("WWW-Authenticate", "Bearer realm=\"mercure\"")] }) :=
  ⟨by decide, by decide, by decide,
    c6_no_token verifyNever urlOriginId cfgC6w reqC6w (by decide) (by decide) (by decide)⟩

/-
Request handler and security headers (src/server/handler.ts). Response
headers are embedded as a lookup function from header name to value;
Headers.set is point-update, and the object-literal headers of an error
response are converted with a last-entry-wins lookup, matching the spread
semantics in handleError. Bodies are irrelevant to the claims and omitted.
The Accept-header resolution feeding acceptsJSON is taken as a Bool
parameter.
-/

/-- A response: status plus the header lookup. -/
structure HttpResponse where
  status : Nat
  headers : String → Option String

/-- Headers.set: point update of the header map. -/
def headersSet (h : String → Option String) (k v : String) : String → Option String :=
  fun q => if q = k then some v else h q

/-- Lookup over a literal list of header pairs, later entries winning, as in
a JavaScript object literal with spreads. -/
def headersOfList (hs : List (String × String)) : String → Option String :=
  fun k => ((hs.filter fun p => p.1 == k).getLast?).map fun p => p.2

/-- withGenericHeaders from src/server/handler.ts: set the five security
headers on the response. -/
def withGenericHeaders (r : HttpResponse) : HttpResponse :=
  { r with
    headers :=
      headersSet
        (headersSet
          (headersSet
            (headersSet (headersSet r.headers "server" "Mercure/0.0.1 (Deno)")
              "x-content-type-options" "nosniff")
            "x-frame-options" "DENY")
          "x-xss-protection" "1; mode=block")
        "referrer-policy" "same-origin" }

/-- handleError from src/server/handler.ts: render the error payload with a
content type chosen by the Accept resolution, its status, and its headers
(spread after the content type, so they may override it). -/
def handleError (acceptsJSON : Bool) (error : HttpErr) : HttpResponse :=
  { status := error.status
    headers :=
      headersOfList
        (("content-type",
            if acceptsJSON then "application/json; charset=utf-8"
            else "text/plain; charset=utf-8") :: error.headers) }

/-- The respond closure built by createHandler: the routed handler either
returns a response or throws; a thrown error is rendered by handleError; in
both cases the result goes through withGenericHeaders. -/
def respond (result : Except HttpErr HttpResponse) (acceptsJSON : Bool) : HttpResponse :=
  withGenericHeaders
    (match result with
     | Except.ok response => response
     | Except.error error => handleError acceptsJSON error)

theorem headersSet_self (h : String → Option String) (k v : String) :
    headersSet h k v k = some v := by
  simp [headersSet]

theorem headersSet_ne (h : String → Option String) (k v q : String) (hq : q ≠ k) :
    headersSet h k v q = h q := by
  simp [headersSet, hq]

/-- C9: every response the handler produces, whether the routed handler
succeeded or threw any error, carries the five security headers with the
values set by withGenericHeaders. -/
theorem c9_security_headers_always_present (result : Except HttpErr HttpResponse)
    (acceptsJSON : Bool) :
    (respond result acceptsJSON).headers "server" = some "Mercure/0.0.1 (Deno)" ∧
    (respond result acceptsJSON).headers "x-content-type-options" = some "nosniff" ∧
    (respond result acceptsJSON).headers "x-frame-options" = some "DENY" ∧
    (respond result acceptsJSON).headers "x-xss-protection" = some "1; mode=block" ∧
    (respond result acceptsJSON).headers "referrer-policy" = some "same-origin" := by
  cases result <;>
    refine ⟨?_, ?_, ?_, ?_, ?_⟩ <;>
    simp only [respond, withGenericHeaders] <;>
    first
      | rw [headersSet_self]
      | rw [headersSet_ne _ _ _ _ (by decide), headersSet_self]
      | rw [headersSet_ne _ _ _ _ (by decide), headersSet_ne _ _ _ _ (by decide),
          headersSet_self]
      | rw [headersSet_ne _ _ _ _ (by decide), headersSet_ne _ _ _ _ (by decide),
          headersSet_ne _ _ _ _ (by decide), headersSet_self]
      | rw [headersSet_ne _ _ _ _ (by decide), headersSet_ne _ _ _ _ (by decide),
          headersSet_ne _ _ _ _ (by decide), headersSet_ne _ _ _ _ (by decide),
          headersSet_self]

/-
In-memory transport (src/transports/memory.ts). The transport state is the
RingBuffer store; the EventTarget listener registry is represented by the
event forwarded from dispatchEvent, which the source always hands to the
target unchanged after the optional store push.
-/

/-- The RingBuffer from src/transports/memory.ts. A limit of none embeds the
JavaScript Infinity default; buffer and pointer mirror the private fields. -/
structure RingBuffer (α : Type) where
  buffer : List α := []
  limit : Option Nat := none
  pointer : Nat := 0
  deriving DecidableEq, Repr

/-- RingBuffer.push: when the buffer length has reached the (finite) limit,
overwrite the slot at the pointer, else append; then advance the pointer
modulo the limit (with the Infinity limit the modulo is the identity). -/
def RingBuffer.push {α : Type} (rb : RingBuffer α) (value : α) : RingBuffer α :=
  let buffer :=
    if some rb.buffer.length = rb.limit then
      rb.buffer.set rb.pointer value
    else
      rb.buffer ++ [value]
  let pointer :=
    match rb.limit with
    | some limit => (rb.pointer + 1) % limit
    | none => rb.pointer + 1
  { rb with buffer := buffer, pointer := pointer }

/-- The sentinel id from src/hub.ts. -/
def earliestEventId : String := "earliest"

/-- The loop body of MemoryTransport.eventsAfter: walk the buffer in its
iteration order, yielding once the flag is set; the flag starts true for the
sentinel id and becomes true just after the element carrying lastEventId. -/
def eventsAfterAux (lastEventId : String) : List Update → Bool → List Update
  | [], _ => []
  | u :: rest, next =>
    (if next then [u] else []) ++
      eventsAfterAux lastEventId rest (next || u.id == lastEventId)

/-- MemoryTransport.eventsAfter over the stored buffer, as the list of
yielded updates. -/
def MemoryTransport.eventsAfter (store : RingBuffer Update) (lastEventId : String) :
    List Update :=
  eventsAfterAux lastEventId store.buffer (lastEventId == earliestEventId)

/-- The event kinds of the transport EventMap (src/transports/mod.ts); the
non-update events carry their detail payload opaquely. -/
inductive TransportEvent where
  | update (data : Update)
  | subscribe (detail : String)
  | unsubscribe (detail : String)
  | connect (detail : String)
  | disconnect (detail : String)
  deriving DecidableEq, Repr

/-- The event.type string the source compares against "update". -/
def TransportEvent.eventType : TransportEvent → String
  | TransportEvent.update _ => "update"
  | TransportEvent.subscribe _ => "subscribe"
  | TransportEvent.unsubscribe _ => "unsubscribe"
  | TransportEvent.connect _ => "connect"
  | TransportEvent.disconnect _ => "disconnect"

/-- MemoryTransport.dispatchEvent: push the payload into the store only for
events of type "update", then dispatch the event (unchanged) on the internal
EventTarget; the second component is that forwarded event. -/
def MemoryTransport.dispatchEvent (store : RingBuffer Update) (event : TransportEvent) :
    RingBuffer Update × TransportEvent :=
  (match event with
   | TransportEvent.update u => store.push u
   | _ => store,
   event)

/-- The MemoryTransport constructor: the store starts empty with Infinity
limit; a truthy (nonzero) limit argument is installed through the limit
setter, which for an empty buffer is plain assignment. -/
def MemoryTransport.new (limit : Option Nat := none) : RingBuffer Update :=
  { buffer := []
    limit := match limit with
      | some l => if l = 0 then none else some l
      | none => none
    pointer := 0 }

/-- Dispatch a sequence of events: the resulting store and the list of
events forwarded to the EventTarget, in order. -/
def dispatchAll (store : RingBuffer Update) :
    List TransportEvent → RingBuffer Update × List TransportEvent
  | [] => (store, [])
  | e :: rest =>
    let step := MemoryTransport.dispatchEvent store e
    let tail := dispatchAll step.1 rest
    (tail.1, step.2 :: tail.2)

/-- The store after dispatching a sequence of events. -/
def processEvents (store : RingBuffer Update) (events : List TransportEvent) :
    RingBuffer Update :=
  (dispatchAll store events).1

/-- The events forwarded to the listener target while dispatching a
sequence of events. -/
def forwardedEvents (store : RingBuffer Update) (events : List TransportEvent) :
    List TransportEvent :=
  (dispatchAll store events).2

theorem mem_eventsAfterAux {u : Update} {lastEventId : String} :
    ∀ {l : List Update} {next : Bool}, u ∈ eventsAfterAux lastEventId l next → u ∈ l := by
  intro l
  induction l with
  | nil => intro next h; simp [eventsAfterAux] at h
  | cons v rest ih =>
    intro next h
    rcases List.mem_append.mp h with h1 | h2
    · cases next with
      | false => simp at h1
      | true => simp at h1; simp [h1]
    · exact List.mem_cons_of_mem _ (ih h2)

theorem mem_buffer_push {α : Type} {u : α} {rb : RingBuffer α} {v : α}
    (h : u ∈ (rb.push v).buffer) : u ∈ rb.buffer ∨ u = v := by
  unfold RingBuffer.push at h
  by_cases hfull : some rb.buffer.length = rb.limit
  · simp only [hfull, if_pos rfl] at h
    exact List.mem_or_eq_of_mem_set h
  · simp only [if_neg hfull] at h
    rcases List.mem_append.mp h with h1 | h2
    · exact Or.inl h1
    · simp at h2; exact Or.inr h2

theorem mem_buffer_dispatchAll {u : Update} :
    ∀ (events : List TransportEvent) (store : RingBuffer Update),
      u ∈ (dispatchAll store events).1.buffer →
      u ∈ store.buffer ∨ TransportEvent.update u ∈ events := by
  intro events
  induction events with
  | nil => intro store h; exact Or.inl (by simpa [dispatchAll] using h)
  | cons e rest ih =>
    intro store h
    have h' : u ∈ (dispatchAll (MemoryTransport.dispatchEvent store e).1 rest).1.buffer := by
      simpa [dispatchAll] using h
    rcases ih _ h' with h1 | h2
    · cases e with
      | update w =>
        rcases mem_buffer_push (by simpa [MemoryTransport.dispatchEvent] using h1) with hm | he
        · exact Or.inl hm
        · exact Or.inr (by simp [he])
      | subscribe d => exact Or.inl (by simpa [MemoryTransport.dispatchEvent] using h1)
      | unsubscribe d => exact Or.inl (by simpa [MemoryTransport.dispatchEvent] using h1)
      | connect d => exact Or.inl (by simpa [MemoryTransport.dispatchEvent] using h1)
      | disconnect d => exact Or.inl (by simpa [MemoryTransport.dispatchEvent] using h1)
    · exact Or.inr (List.mem_cons_of_mem _ h2)

theorem processEvents_of_no_update :
    ∀ (events : List TransportEvent) (store : RingBuffer Update),
      (∀ e ∈ events, e.eventType ≠ "update") →
      processEvents store events = store := by
  intro events
  induction events with
  | nil => intro store _; rfl
  | cons e rest ih =>
    intro store hno
    have he : e.eventType ≠ "update" := hno e (List.mem_cons_self e rest)
    have hstep : (MemoryTransport.dispatchEvent store e).1 = store := by
      cases e with
      | update w => exact absurd rfl he
      | subscribe d => rfl
      | unsubscribe d => rfl
      | connect d => rfl
      | disconnect d => rfl
    have := ih store fun x hx => hno x (List.mem_cons_of_mem e hx)
    calc processEvents store (e :: rest)
        = processEvents (MemoryTransport.dispatchEvent store e).1 rest := by
          simp [processEvents, dispatchAll]
      _ = store := by rw [hstep]; exact this

theorem forwardedEvents_eq :
    ∀ (events : List TransportEvent) (store : RingBuffer Update),
      forwardedEvents store events = events := by
  intro events
  induction events with
  | nil => intro store; rfl
  | cons e rest ih =>
    intro store
    simp [forwardedEvents, dispatchAll, MemoryTransport.dispatchEvent]
    exact ih _

/-- C10: for every sequence of dispatched events, (i) every update that
eventsAfter can ever yield is the payload of some dispatched "update" event
(connect, disconnect, subscribe and unsubscribe events are never stored, so
they are never replayed), (ii) dispatching only non-update events leaves the
store untouched, and (iii) every event, of any type, is forwarded once, in
order, to the listener target. -/
theorem c10_only_updates_stored (events : List TransportEvent) (limit : Option Nat)
    (lastEventId : String) (store store2 : RingBuffer Update) :
    ((MemoryTransport.eventsAfter (processEvents (MemoryTransport.new limit) events)
        lastEventId).all fun u => events.contains (TransportEvent.update u)) = true ∧
    processEvents store (events.filter fun e => e.eventType != "update") = store ∧
    forwardedEvents store2 events = events := by
  refine ⟨?_, ?_, forwardedEvents_eq events store2⟩
  · rw [List.all_eq_true]
    intro u hu
    have h1 : u ∈ (processEvents (MemoryTransport.new limit) events).buffer :=
      mem_eventsAfterAux hu
    rcases mem_buffer_dispatchAll events _ h1 with h2 | h3
    · simp [MemoryTransport.new] at h2
    · exact List.elem_eq_true_of_mem h3
  · apply processEvents_of_no_update
    intro e he
    have := (List.mem_filter.mp he).2
    simpa [bne] using this

def updC2a : Update :=
  { id := "urn:uuid:a", canonicalTopic := "https://example.com/a", alternateTopics := [] }

def updC2b : Update :=
  { id := "urn:uuid:b", canonicalTopic := "https://example.com/b", alternateTopics := [] }

def updC2c : Update :=
  { id := "urn:uuid:c", canonicalTopic := "https://example.com/c", alternateTopics := [] }

/-- The store of a MemoryTransport with limit 2 after publishing three
updates in order: the ring buffer has wrapped once. -/
def wrappedStore : RingBuffer Update :=
  processEvents (MemoryTransport.new (some 2))
    [TransportEvent.update updC2a, TransportEvent.update updC2b, TransportEvent.update updC2c]

/-- C2, failing input: on a MemoryTransport with limit 2 holding the
publications a, b, c, the buffer iterates as c then b (not publication
order), so eventsAfter at the id of b, which is still stored together with
the strictly later c, yields nothing instead of the claimed singleton c,
and the sentinel "earliest" replays c before b instead of publication
order. -/
theorem c2_ringbuffer_replay_bug :
    wrappedStore.buffer = [updC2c, updC2b] ∧
    MemoryTransport.eventsAfter wrappedStore updC2b.id = [] ∧
    MemoryTransport.eventsAfter wrappedStore updC2b.id ≠ [updC2c] ∧
    MemoryTransport.eventsAfter wrappedStore earliestEventId = [updC2c, updC2b] := by
  decide

/-
Subscriber.dispatch and EventStream.write (src/subscribers.ts). The
subscriber connection state is the lastEventId cursor, the active flag, the
stream-closed flag, the chunks written to the stream and the log lines. The
outcome of the underlying WritableStream write is a Bool parameter
(writeFails). EventStream.write catches any write error itself, logs
"Error writing to stream" and returns normally, so the surrounding
try/catch in dispatch never observes a write failure; the internal
message-event bus of the subscriber is not modelled.
-/

/-- The subscriber connection state touched by dispatch and close. -/
structure SubscriberState where
  lastEventId : Option String := none
  active : Bool := true
  streamClosed : Bool := false
  writes : List String := []
  logs : List String := []
  deriving DecidableEq, Repr

/-- EventStream.write: append the chunk on success; on a failing underlying
write, swallow the error and log. -/
def EventStream.write (s : SubscriberState) (input : String) (writeFails : Bool) :
    SubscriberState :=
  if writeFails then { s with logs := s.logs ++ ["Error writing to stream"] }
  else { s with writes := s.writes ++ [input] }

/-- Subscriber.close: disable heartbeats, clear the active flag and close
the stream. -/
def Subscriber.close (s : SubscriberState) : SubscriberState :=
  { s with active := false, streamClosed := true }

/-- JSON string escaping for the characters that can occur in the concrete
inputs of this development (quote, backslash, newline, carriage return,
tab); other characters are emitted verbatim. -/
def jsonEscapeChar (c : Char) : String :=
  if c = '\x22' then "\\\x22"
  else if c = '\\' then "\\\\"
  else if c = '\n' then "\\n"
  else if c = '\x0d' then "\\r"
  else if c = '\t' then "\\t"
  else String.singleton c

def jsonEscape (s : String) : String :=
  String.join (s.toList.map jsonEscapeChar)

def jsonStr (s : String) : String :=
  "\x22" ++ jsonEscape s ++ "\x22"

/-- JSON.stringify of an Update object: the defined fields in declaration
order (src/updates.ts), optional fields omitted when undefined, and the
private flag omitted when false (JavaScript truthiness collapses an absent
flag and false). The claims below never depend on the key order, only on
the fact that the serialization is a single data field and not an SSE
frame. -/
def jsonStringifyUpdate (u : Update) : String :=
  "\x7b" ++
    String.intercalate ","
      ([jsonStr "id" ++ ":" ++ jsonStr u.id,
        jsonStr "canonicalTopic" ++ ":" ++ jsonStr u.canonicalTopic,
        jsonStr "alternateTopics" ++ ":[" ++
          String.intercalate "," (u.alternateTopics.map jsonStr) ++ "]"] ++
        (match u.data with
         | some d => [jsonStr "data" ++ ":" ++ jsonStr d]
         | none => []) ++
        (match u.type with
         | some t => [jsonStr "type" ++ ":" ++ jsonStr t]
         | none => []) ++
        (match u.retry with
         | some r => [jsonStr "retry" ++ ":" ++ Nat.repr r]
         | none => []) ++
        (if u.confidential then [jsonStr "private" ++ ":true"] else [])) ++
  "\x7d"

/-- Subscriber.dispatch from src/subscribers.ts lines 187-202: record the
last event id first, then write the single SSE data field carrying the
JSON-serialized update, the write error (if any) being swallowed and logged
inside EventStream.write. -/
def Subscriber.dispatch (s : SubscriberState) (u : Update) (writeFails : Bool) :
    SubscriberState :=
  let s1 := { s with lastEventId := some u.id }
  EventStream.write s1 ("data: " ++ jsonStringifyUpdate u ++ "\n\n") writeFails

/-- Modelled from the spec: the SSE frame that C3 claims dispatch writes,
id and data lines first, then the optional event and retry lines, then the
blank-line terminator. -/
def sseFrameClaim (u : Update) : String :=
  "id: " ++ u.id ++ "\n" ++ "data: " ++ u.data.getD "" ++ "\n" ++
    (match u.type with
     | some t => "event: " ++ t ++ "\n"
     | none => "") ++
    (match u.retry with
     | some r => "retry: " ++ Nat.repr r ++ "\n"
     | none => "") ++
    "\n"

def updC3 : Update :=
  { id := "urn:uuid:c3", canonicalTopic := "https://example.com/a"
    alternateTopics := [], data := some "hello" }

def initialSubscriber : SubscriberState := {}

/-- C3, counterexample: dispatching a concrete update writes a single
data field carrying the JSON serialization of the whole update, not the
claimed id/data SSE frame. -/
theorem c3_counterexample :
    (Subscriber.dispatch initialSubscriber updC3 false).writes ≠ [sseFrameClaim updC3] ∧
    sseFrameClaim updC3 = "id: urn:uuid:c3\ndata: hello\n\n" ∧
    (Subscriber.dispatch initialSubscriber updC3 false).writes =
      ["data: \x7b\"id\":\"urn:uuid:c3\",\"canonicalTopic\":\"https://example.com/a\",\"alternateTopics\":[],\"data\":\"hello\"\x7d\n\n"] := by
  decide

/-- C3, amended: dispatch records lastEventId = update.id before attempting
the write (the cursor is updated even when the write fails), and the bytes
written for the update are the single frame data colon JSON.stringify of
the update followed by a blank line; no id, event or retry field is
written. -/
theorem c3_dispatch_cursor_then_json_data (s : SubscriberState) (u : Update) :
    (Subscriber.dispatch s u true).lastEventId = some u.id ∧
    (Subscriber.dispatch s u false).lastEventId = some u.id ∧
    (Subscriber.dispatch s u false).writes =
      s.writes ++ ["data: " ++ jsonStringifyUpdate u ++ "\n\n"] := by
  refine ⟨?_, ?_, ?_⟩ <;> simp [Subscriber.dispatch, EventStream.write]

/-- C4, counterexample: a failing stream write during dispatch leaves the
concrete subscriber active with its stream open; the failure is only
logged. -/
theorem c4_counterexample :
    (Subscriber.dispatch initialSubscriber updC3 true).active = true ∧
    (Subscriber.dispatch initialSubscriber updC3 true).streamClosed = false ∧
    (Subscriber.dispatch initialSubscriber updC3 true).logs =
      ["Error writing to stream"] := by
  decide

/-- C4, amended: a write failure during dispatch is caught inside
EventStream.write and logged; the subscriber keeps its active flag, its
stream stays open, and nothing is written — closure is driven only by the
request abort signal, not by write errors. -/
theorem c4_write_failure_only_logged (s : SubscriberState) (u : Update) :
    (Subscriber.dispatch s u true).active = s.active ∧
    (Subscriber.dispatch s u true).streamClosed = s.streamClosed ∧
    (Subscriber.dispatch s u true).writes = s.writes ∧
    (Subscriber.dispatch s u true).logs = s.logs ++ ["Error writing to stream"] := by
  refine ⟨?_, ?_, ?_, ?_⟩ <;> simp [Subscriber.dispatch, EventStream.write]
